import Mathlib

/-!
Verification development for the local-notes-taker application core.

The Python sources are shallowly embedded: each relevant class or function of
`src/app/recorder.py`, `src/app/main.py`, `src/app/transcriber.py` and
`src/app/ollama_manager.py` is translated into an executable Lean definition,
and the specification's claims are settled as theorems about those definitions.
-/

namespace LocalNotes

/-! ## Recorder / AudioBuffer (src/app/recorder.py)

The recorder keeps `self._chunks : list[np.ndarray]` and an optional input
stream.  Samples are abstracted by a type `α` (the source stores float32
samples; only their identity and order matter for the buffer claims, and the
per-drain int16 conversion is applied pointwise, so it commutes with
concatenation). -/

/-- State of a `Recorder` (recorder.py, lines 12-16): `chunks` is the audio
buffer `_chunks`, `stream` records whether a capture stream is open. -/
structure Recorder (α : Type) where
  chunks : List (List α)
  stream : Bool
deriving Repr, DecidableEq

/-- `Recorder.__init__` (recorder.py, lines 13-16): empty buffer, no stream. -/
def Recorder.init (α : Type) : Recorder α :=
  { chunks := [], stream := false }

/-- `Recorder.start` (recorder.py, lines 21-30): resets the buffer to empty and
opens a fresh capture stream. -/
def Recorder.start (_s : Recorder α) : Recorder α :=
  { chunks := [], stream := true }

/-- `Recorder._callback` (recorder.py, lines 18-19): appends a copy of the
incoming chunk to the buffer.  (In the source this append is not inside a
`with self._lock` block; see the mutation-site table further below.) -/
def Recorder.callback (s : Recorder α) (c : List α) : Recorder α :=
  { s with chunks := s.chunks ++ [c] }

/-- `Recorder.flush` (recorder.py, lines 32-45): if the buffer is empty return
`None`; otherwise concatenate all buffered chunks, clear the buffer, and return
the drained audio (materialised in the source as a temp WAV file, which we
represent by its sample content). -/
def Recorder.flush (s : Recorder α) : Option (List α) × Recorder α :=
  match s.chunks with
  | [] => (none, s)
  | c :: cs => (some ((c :: cs).flatten), { s with chunks := [] })

/-- `Recorder.stop` (recorder.py, lines 47-66): closes the stream, then raises
`RuntimeError("No audio recorded")` when the buffer is empty, and otherwise
returns the concatenation of the remaining chunks and clears the buffer. -/
def Recorder.stop (s : Recorder α) : Except String (List α) × Recorder α :=
  match s.chunks with
  | [] => (Except.error "No audio recorded", { s with stream := false })
  | c :: cs => (Except.ok ((c :: cs).flatten), { chunks := [], stream := false })

/-- One recording-session event: either the capture callback delivers a chunk,
or the incremental loop calls `flush`. -/
inductive RecOp (α : Type) where
  | push (c : List α)
  | flushReq
deriving Repr, DecidableEq

/-- Run a sequence of session events against a recorder state under the
serialized, atomic-drain scheduling: no callback append interleaves inside a
drain's read-and-clear.  The audio returned by each successful `flush` is
collected in call order.  (Because the source callback appends outside the
lock, the program also admits non-serialized interleavings; those are
modelled by `RaceAct`/`raceRun` further below.) -/
def runOps : List (RecOp α) → Recorder α → List (List α) × Recorder α
  | [], s => ([], s)
  | RecOp.push c :: ops, s => runOps ops (s.callback c)
  | RecOp.flushReq :: ops, s =>
    let fr := s.flush
    let r := runOps ops fr.2
    (fr.1.toList ++ r.1, r.2)

/-- The chunks captured (pushed by the callback) during a sequence of events,
in arrival order. -/
def pushedChunks : List (RecOp α) → List (List α)
  | [] => []
  | RecOp.push c :: ops => c :: pushedChunks ops
  | RecOp.flushReq :: ops => pushedChunks ops

theorem runOps_join (ops : List (RecOp α)) :
    ∀ s : Recorder α,
      (runOps ops s).1.flatten ++ (runOps ops s).2.chunks.flatten
        = s.chunks.flatten ++ (pushedChunks ops).flatten := by
  induction ops with
  | nil =>
    intro s
    simp [runOps, pushedChunks]
  | cons op ops ih =>
    intro s
    cases op with
    | push c =>
      have h := ih (s.callback c)
      simp [runOps, pushedChunks, Recorder.callback] at h ⊢
      simp [h]
    | flushReq =>
      cases hc : s.chunks with
      | nil =>
        have h := ih s
        simp [runOps, Recorder.flush, hc] at h ⊢
        simpa [hc] using h
      | cons c cs =>
        have h := ih { s with chunks := [] }
        simp [runOps, Recorder.flush, hc, pushedChunks] at h ⊢
        simp [h, hc, List.append_assoc]

theorem flush_clears (s : Recorder α) : (s.flush).2.chunks = [] := by
  cases hc : s.chunks <;> simp [Recorder.flush, hc]

theorem stop_clears (s : Recorder α) : (s.stop).2.chunks = [] := by
  cases hc : s.chunks <;> simp [Recorder.stop, hc]

/-- Claim C2 as amended: over every recording session whose drains are atomic
with respect to the capture callback (no append interleaving between a
drain's read of the buffer and its clear), the concatenation of the audio
returned by the flush calls, in call order, followed by the tail returned by
a successful final `stop`, equals the concatenation of all captured chunks —
no sample duplicated, none dropped — and every drain (`flush` or `stop`)
leaves the buffer empty.  Because the callback appends without taking the
lock, the program also admits sessions in which an append lands inside a
drain and that chunk is lost; see the counterexample below the race model. -/
theorem C2_amended_atomic_drains :
    (∀ ops : List (RecOp Nat),
      (runOps ops ((Recorder.init Nat).start)).1.flatten
          ++ (runOps ops ((Recorder.init Nat).start)).2.chunks.flatten
        = (pushedChunks ops).flatten)
    ∧ (∀ ops : List (RecOp Nat), ∀ tail : List Nat,
        ((runOps ops ((Recorder.init Nat).start)).2.stop).1 = Except.ok tail →
        (runOps ops ((Recorder.init Nat).start)).1.flatten ++ tail
          = (pushedChunks ops).flatten)
    ∧ (∀ s : Recorder Nat, (s.flush).2.chunks = [] ∧ (s.stop).2.chunks = []) := by
  refine ⟨?_, ?_, fun s => ⟨flush_clears s, stop_clears s⟩⟩
  · intro ops
    simpa [Recorder.init, Recorder.start] using
      runOps_join ops ((Recorder.init Nat).start)
  · intro ops tail hok
    have base := runOps_join ops ((Recorder.init Nat).start)
    set s := (runOps ops ((Recorder.init Nat).start)).2 with hs
    have htail : tail = s.chunks.flatten := by
      cases hc : s.chunks with
      | nil =>
        exfalso
        rw [Recorder.stop] at hok
        simp [hc] at hok
      | cons c cs =>
        rw [Recorder.stop] at hok
        simp [hc] at hok
        simp [hok, hc]
    rw [htail]
    simpa [Recorder.init, Recorder.start] using base

/-- Witness for the amended C2: a concrete atomic-drain session
(push [1,2], flush, push [3], stop). -/
theorem C2_amended_atomic_drains_witness :
    (runOps [RecOp.push [1, 2], RecOp.flushReq, RecOp.push [3]]
        ((Recorder.init Nat).start)).1.flatten ++ [3]
      = (pushedChunks
          [RecOp.push [1, 2], RecOp.flushReq, RecOp.push ([3] : List Nat)]).flatten :=
  C2_amended_atomic_drains.2.1 [RecOp.push [1, 2], RecOp.flushReq, RecOp.push [3]]
    [3] rfl

/-- Counterexample to claim C1: a session in which a chunk was captured, a
flush drained it (and returned audio), and no chunk arrived afterwards.  The
claim says `stop` must then succeed with an empty/silent tail, but
`Recorder.stop` raises `RuntimeError("No audio recorded")`. -/
theorem C1_counterexample :
    (((((Recorder.init Nat).start).callback [7]).flush).1 = some [7])
    ∧ ((((((Recorder.init Nat).start).callback [7]).flush).2.stop).1
        = Except.error "No audio recorded") :=
  ⟨rfl, rfl⟩

/-- Claim C1 as amended: `stop()` raises the no-audio error exactly when the
buffer is empty at stop time — regardless of whether earlier flushes returned
audio — and succeeds with the concatenation of the remaining chunks otherwise;
in all cases the stream is closed and the buffer left empty. -/
theorem C1_amended_stop_empty_buffer (s : Recorder Nat) :
    (s.chunks = [] → (s.stop).1 = Except.error "No audio recorded")
    ∧ (s.chunks ≠ [] → (s.stop).1 = Except.ok s.chunks.flatten)
    ∧ (s.stop).2.stream = false ∧ (s.stop).2.chunks = [] := by
  refine ⟨?_, ?_, ?_, stop_clears s⟩
  · intro hc
    simp [Recorder.stop, hc]
  · intro hc
    cases hcc : s.chunks with
    | nil => exact absurd hcc hc
    | cons c cs => simp [Recorder.stop, hcc]
  · cases hcc : s.chunks <;> simp [Recorder.stop, hcc]

/-- Witness for the amended C1 at concrete inputs. -/
theorem C1_amended_stop_empty_buffer_witness :
    ((Recorder.init Nat).stop).1 = Except.error "No audio recorded"
    ∧ (({ chunks := [[5]], stream := true } : Recorder Nat).stop).1
        = Except.ok [5] :=
  ⟨(C1_amended_stop_empty_buffer (Recorder.init Nat)).1 rfl,
   (C1_amended_stop_empty_buffer { chunks := [[5]], stream := true }).2.1
     (by simp)⟩

/-! ## Transcript accumulation (src/app/main.py)

`_transcript_so_far` starts empty when recording starts (main.py line 289).
The incremental loop (lines 199-213) and the stop-time tail step (lines
334-336) run the same append:
`if text.strip(): self._transcript_so_far += (" " + text if self._transcript_so_far else text)`. -/

/-- Python `str.strip()`: remove whitespace from both ends of the string. -/
def pyStrip (s : String) : String :=
  ⟨((s.data.dropWhile Char.isWhitespace).reverse.dropWhile Char.isWhitespace).reverse⟩

/-- One transcription result being appended to `_transcript_so_far`
(main.py lines 207-208, identically lines 335-336). -/
def appendSegment (acc t : String) : String :=
  if pyStrip t = "" then acc
  else if acc = "" then t
  else acc ++ " " ++ t

/-- The transcript accumulated over one session: the drain-ordered
transcription results (each flush result in time order, the stop-time tail
last) folded through `appendSegment` from the empty initial transcript. -/
def accumulateTranscript (texts : List String) : String :=
  texts.foldl appendSegment ""

/-- Modelled from the spec: segments "concatenated with a single separating
space when non-empty" — the plain space-join of a list of segments. -/
def specSpaceJoin : List String → String
  | [] => ""
  | [t] => t
  | t :: t2 :: ts => t ++ " " ++ specSpaceJoin (t2 :: ts)

/-- Helper: the space-join written with a leading separator per segment. -/
def prefJoin : List String → String
  | [] => ""
  | t :: ts => " " ++ t ++ prefJoin ts

theorem specSpaceJoin_cons (t : String) (ts : List String) :
    specSpaceJoin (t :: ts) = t ++ prefJoin ts := by
  induction ts generalizing t with
  | nil => simp [specSpaceJoin, prefJoin, String.append_empty]
  | cons t2 ts ih =>
    simp [specSpaceJoin, prefJoin, ih, String.append_assoc]

theorem append_space_ne_empty (a t : String) : a ++ " " ++ t ≠ "" := by
  intro h
  have hd := congrArg String.data h
  simp [String.data_append] at hd

theorem foldl_appendSegment (ts : List String) :
    ∀ acc : String, acc ≠ "" →
      List.foldl appendSegment acc ts
        = acc ++ prefJoin (ts.filter fun t => pyStrip t != "") := by
  induction ts with
  | nil =>
    intro acc _
    simp [prefJoin, String.append_empty]
  | cons t ts ih =>
    intro acc hacc
    by_cases h : pyStrip t = ""
    · simp [appendSegment, h, ih acc hacc]
    · have hstep : appendSegment acc t = acc ++ " " ++ t := by
        simp [appendSegment, h, hacc]
      simp only [List.foldl_cons, hstep, List.filter_cons]
      have hkeep : (pyStrip t != "") = true := by simpa using h
      rw [if_pos hkeep, ih (acc ++ " " ++ t) (append_space_ne_empty acc t)]
      simp [prefJoin, String.append_assoc]

theorem accumulateTranscript_eq (ts : List String) :
    accumulateTranscript ts = specSpaceJoin (ts.filter fun t => pyStrip t != "") := by
  induction ts with
  | nil => rfl
  | cons t ts ih =>
    by_cases h : pyStrip t = ""
    · have hstep : appendSegment "" t = "" := by simp [appendSegment, h]
      have hdrop : (pyStrip t != "") = false := by simpa using h
      rw [accumulateTranscript, List.foldl_cons, hstep, List.filter_cons, if_neg (by simp [hdrop])]
      exact ih
    · have ht : t ≠ "" := fun he => h (by rw [he]; rfl)
      have hstep : appendSegment "" t = t := by simp [appendSegment, h]
      have hkeep : (pyStrip t != "") = true := by simpa using h
      rw [accumulateTranscript, List.foldl_cons, hstep, foldl_appendSegment ts t ht,
        List.filter_cons, if_pos hkeep, specSpaceJoin_cons]

/-- Claim C4: for every session, `_transcript_so_far` equals the transcription
results that are non-blank after stripping, joined in chronological drain
order with a single separating space; and the concrete end-to-end scenario
(flush texts "hello world" and "testing one", tail "two three") yields the
final transcript "hello world testing one two three". -/
theorem C4_transcript_space_join :
    (∀ texts : List String,
      accumulateTranscript texts
        = specSpaceJoin (texts.filter fun t => pyStrip t != ""))
    ∧ pyStrip (accumulateTranscript ["hello world", "testing one", "two three"])
        = "hello world testing one two three" :=
  ⟨accumulateTranscript_eq, by decide⟩

/-! ## Application state machine (src/app/main.py)

`self.state` is one of `State.IDLE / RECORDING / PROCESSING` (lines 49-52).
Toggle requests arrive via `_toggle_from_hotkey` (lines 279-283) and
`_on_toggle_recording` (lines 215-219), which have identical bodies. -/

/-- The application states (main.py lines 49-52). -/
inductive AppState where
  | idle
  | recording
  | processing
deriving Repr, DecidableEq, Fintype

/-- Events driving the state machine: a toggle request (hotkey or tray menu)
and completion of the background processing pipeline. -/
inductive AppEvent where
  | toggle
  | processDone
deriving Repr, DecidableEq, Fintype

/-- `_toggle_from_hotkey` / `_on_toggle_recording` (main.py lines 215-219,
279-283): in Idle call `_start_recording` (sets state to Recording, line 286);
in Recording call `_stop_recording` (sets state to Processing, line 296);
in Processing neither branch applies, so the toggle is a no-op. -/
def toggleAction : AppState → AppState
  | AppState.idle => AppState.recording
  | AppState.recording => AppState.processing
  | AppState.processing => AppState.processing

/-- One step of the state machine.  `processDone` models `_reset`
(main.py lines 378-381), which is invoked only from the `finally` block of
`_process` — a worker thread that exists only while the state is Processing —
hence the guard on the current state. -/
def appStep : AppState → AppEvent → AppState
  | s, AppEvent.toggle => toggleAction s
  | s, AppEvent.processDone =>
    if s = AppState.processing then AppState.idle else s

/-- Successor along the documented cycle Idle→Recording→Processing→Idle. -/
def cycleNext : AppState → AppState
  | AppState.idle => AppState.recording
  | AppState.recording => AppState.processing
  | AppState.processing => AppState.idle

/-- Claim C5: toggling in Idle starts recording, toggling in Recording moves
to Processing, any request in Processing is a no-op, processing completion
re-enters Idle, Recording is only ever entered from Idle by a toggle (never
directly from Processing), and every transition either stays put or follows
the cycle Idle→Recording→Processing→Idle. -/
theorem C5_state_machine_cycle :
    (appStep AppState.idle AppEvent.toggle = AppState.recording)
    ∧ (appStep AppState.recording AppEvent.toggle = AppState.processing)
    ∧ (appStep AppState.processing AppEvent.toggle = AppState.processing)
    ∧ (appStep AppState.processing AppEvent.processDone = AppState.idle)
    ∧ (∀ s e, s ≠ AppState.recording → appStep s e = AppState.recording →
        s = AppState.idle ∧ e = AppEvent.toggle)
    ∧ (∀ e, appStep AppState.processing e ≠ AppState.recording)
    ∧ (∀ s e, appStep s e = s ∨ appStep s e = cycleNext s) := by
  decide

/-- Witness for C5: the Recording-is-entered-only-from-Idle conjunct applied
at the concrete transition Idle --toggle--> Recording. -/
theorem C5_state_machine_cycle_witness :
    AppState.idle = AppState.idle ∧ AppEvent.toggle = AppEvent.toggle :=
  C5_state_machine_cycle.2.2.2.2.1 AppState.idle AppEvent.toggle (by decide)
    (by decide)

/-! ## Transcriber interface and its call sites (src/app/transcriber.py,
src/app/main.py)

transcriber.py line 15 declares `def transcribe(audio_path: str,
model_size: str = "base") -> str` — there is no `language` parameter and no
`**kwargs`.  main.py calls it at line 206 (incremental flush loop) and line
334 (stop-time tail) as `transcribe(path, model_size=..., language=...)`. -/

/-- The declared parameter names of `transcribe` (transcriber.py line 15). -/
def transcribeParams : List String :=
  ["audio_path", "model_size"]

/-- Shape of a Python call: positional argument count and keyword names. -/
structure PyCall where
  positional : Nat
  keywords : List String
deriving Repr, DecidableEq

/-- The transcription call in `_incremental_transcribe_loop` (main.py line
206): `transcribe(path, model_size=whisper_model, language=self._language)`. -/
def flushLoopTranscribeCall : PyCall :=
  { positional := 1, keywords := ["model_size", "language"] }

/-- The stop-time tail transcription call in `_process` (main.py line 334):
`transcribe(audio_path, model_size=whisper_model, language=self._language)`. -/
def tailTranscribeCall : PyCall :=
  { positional := 1, keywords := ["model_size", "language"] }

/-- Python call binding: for a callee without `**kwargs`, the call raises
`TypeError` unless every keyword argument names a declared parameter. -/
def keywordsAccepted (params : List String) (c : PyCall) : Bool :=
  c.keywords.all fun k => params.contains k

/-- Claim C3 evaluated on the code: both orchestrator transcription calls pass
the keyword `language`, which `transcribe` does not declare, so each such call
raises `TypeError` rather than transcribing with the language hint. -/
theorem C3_language_keyword_rejected :
    keywordsAccepted transcribeParams flushLoopTranscribeCall = false
    ∧ keywordsAccepted transcribeParams tailTranscribeCall = false := by
  decide

/-! ## Processing pipeline `_process` (src/app/main.py lines 320-381) -/

/-- Outcomes of the collaborator calls made inside `_process`, each either a
normal result or a raised exception carrying its message.  `show_notification`
and `auto_paste` run `osascript` with `check=False` and cannot raise. -/
structure ProcEnv where
  stopRes : Except String String
  tailRes : Except String String
  ensureRes : Except String Unit
  summarizeRes : Except String String
  saveRes : Except String Unit
  copyRes : Except String Unit

/-- Effects of the `try` block of `_process` (main.py lines 322-361): the tail
artifact path when `recorder.stop` returned one, the notifications emitted,
which collaborator steps were invoked, and the exception reaching the
top-level handler, if any. -/
structure BodyOut where
  audioPath : Option String
  notices : List (String × String)
  didEnsure : Bool
  didSummarize : Bool
  didSave : Bool
  didCopy : Bool
  didPaste : Bool
  err : Option String
deriving Repr

/-- The `try` block of `_process` (main.py lines 322-361), started with
`_transcript_so_far = acc`; translated statement by statement. -/
def processBody (env : ProcEnv) (acc : String) : BodyOut :=
  match env.stopRes with
  | Except.error e =>
    { audioPath := none, notices := [], didEnsure := false, didSummarize := false,
      didSave := false, didCopy := false, didPaste := false, err := some e }
  | Except.ok path =>
    match env.tailRes with
    | Except.error e =>
      { audioPath := some path, notices := [], didEnsure := false,
        didSummarize := false, didSave := false, didCopy := false,
        didPaste := false, err := some e }
    | Except.ok tailText =>
      if pyStrip (appendSegment acc tailText) = "" then
        { audioPath := some path,
          notices := [("Local Notes", "No speech detected.")],
          didEnsure := false, didSummarize := false, didSave := false,
          didCopy := false, didPaste := false, err := none }
      else
        match env.ensureRes with
        | Except.error e =>
          { audioPath := some path, notices := [], didEnsure := true,
            didSummarize := false, didSave := false, didCopy := false,
            didPaste := false, err := some e }
        | Except.ok _ =>
          match env.summarizeRes with
          | Except.error e =>
            { audioPath := some path, notices := [], didEnsure := true,
              didSummarize := true, didSave := false, didCopy := false,
              didPaste := false, err := some e }
          | Except.ok _ =>
            match env.saveRes with
            | Except.error e =>
              { audioPath := some path, notices := [], didEnsure := true,
                didSummarize := true, didSave := true, didCopy := false,
                didPaste := false, err := some e }
            | Except.ok _ =>
              match env.copyRes with
              | Except.error e =>
                { audioPath := some path, notices := [], didEnsure := true,
                  didSummarize := true, didSave := true, didCopy := true,
                  didPaste := false, err := some e }
              | Except.ok _ =>
                { audioPath := some path,
                  notices := [("Local Notes", "Summary copied to clipboard!")],
                  didEnsure := true, didSummarize := true, didSave := true,
                  didCopy := true, didPaste := true, err := none }

/-- The observable outcome of one `_process` run. -/
structure ProcResult where
  state : AppState
  processingDone : Bool
  notices : List (String × String)
  deletedTemps : List String
  body : BodyOut
deriving Repr

/-- `_process` (main.py lines 320-376): run the `try` block; the `except`
handler (line 362-363) turns a raised exception into exactly one error notice
carrying its message; the `finally` block (lines 364-376) unconditionally
marks processing done, unlinks every incremental temp artifact and the tail
artifact, and calls `_reset` (line 376), which re-enters Idle. -/
def process (env : ProcEnv) (incrementalTemps : List String) (acc : String) :
    ProcResult :=
  let b := processBody env acc
  { state := AppState.idle
    processingDone := true
    notices := b.notices ++
      (match b.err with
       | some e => [("Local Notes - Error", e)]
       | none => [])
    deletedTemps := incrementalTemps ++ b.audioPath.toList
    body := b }

/-- The error notices among a notification log. -/
def errNotices (ns : List (String × String)) : List (String × String) :=
  ns.filter fun n => n.1 == "Local Notes - Error"

/-- Claim C6: every `_process` run terminates in Idle with processing marked
done and every recorded temp artifact (flush intervals plus tail) deleted,
and an exception raised anywhere in the pipeline is caught exactly once and
surfaced as exactly one error notice carrying its message, never propagated
(the embedding is a total function, so nothing escapes). -/
theorem C6_pipeline_always_cleans_up (env : ProcEnv) (temps : List String)
    (acc : String) :
    (process env temps acc).state = AppState.idle
    ∧ (process env temps acc).processingDone = true
    ∧ (process env temps acc).deletedTemps
        = temps ++ (processBody env acc).audioPath.toList
    ∧ (∀ e, (processBody env acc).err = some e →
        errNotices (process env temps acc).notices = [("Local Notes - Error", e)])
    ∧ ((processBody env acc).err = none →
        errNotices (process env temps acc).notices = []) := by
  obtain ⟨stopRes, tailRes, ensureRes, summarizeRes, saveRes, copyRes⟩ := env
  cases stopRes <;> cases tailRes <;> cases ensureRes <;> cases summarizeRes <;>
    cases saveRes <;> cases copyRes <;>
      simp [process, processBody, errNotices] <;> split_ifs <;> simp

/-- Witness for C6: a run whose summarization step raises is still cleaned up
and reported through a single error notice. -/
theorem C6_pipeline_always_cleans_up_witness :
    errNotices
      (process
        { stopRes := Except.ok "tail.wav", tailRes := Except.ok "hi",
          ensureRes := Except.ok (), summarizeRes := Except.error "boom",
          saveRes := Except.ok (), copyRes := Except.ok () }
        ["t1.wav"] "").notices
      = [("Local Notes - Error", "boom")] :=
  (C6_pipeline_always_cleans_up
    { stopRes := Except.ok "tail.wav", tailRes := Except.ok "hi",
      ensureRes := Except.ok (), summarizeRes := Except.error "boom",
      saveRes := Except.ok (), copyRes := Except.ok () }
    ["t1.wav"] "").2.2.2.1 "boom" (by decide)

/-- Claim C7: when the tail transcription succeeds but the accumulated
transcript is blank after stripping, `_process` emits the "No speech
detected." notice, invokes no model-ensure, no summarization, no persistence,
no clipboard copy and no paste, raises nothing, and still runs the
unconditional cleanup (Idle, processing done, all artifacts deleted). -/
theorem C7_no_speech_skips_pipeline (env : ProcEnv) (temps : List String)
    (acc path t : String)
    (hstop : env.stopRes = Except.ok path)
    (htail : env.tailRes = Except.ok t)
    (hempty : pyStrip (appendSegment acc t) = "") :
    (processBody env acc).notices = [("Local Notes", "No speech detected.")]
    ∧ (processBody env acc).didEnsure = false
    ∧ (processBody env acc).didSummarize = false
    ∧ (processBody env acc).didSave = false
    ∧ (processBody env acc).didCopy = false
    ∧ (processBody env acc).didPaste = false
    ∧ (processBody env acc).err = none
    ∧ (process env temps acc).state = AppState.idle
    ∧ (process env temps acc).processingDone = true
    ∧ (process env temps acc).deletedTemps = temps ++ [path] := by
  obtain ⟨stopRes, tailRes, ensureRes, summarizeRes, saveRes, copyRes⟩ := env
  cases hstop
  cases htail
  simp [process, processBody, hempty]

/-- Witness for C7: a silent session (empty tail text, one flush temp). -/
theorem C7_no_speech_skips_pipeline_witness :
    (processBody
        { stopRes := Except.ok "tail.wav", tailRes := Except.ok "",
          ensureRes := Except.error "must not run",
          summarizeRes := Except.error "must not run",
          saveRes := Except.ok (), copyRes := Except.ok () }
        "").notices = [("Local Notes", "No speech detected.")]
    ∧ (processBody
        { stopRes := Except.ok "tail.wav", tailRes := Except.ok "",
          ensureRes := Except.error "must not run",
          summarizeRes := Except.error "must not run",
          saveRes := Except.ok (), copyRes := Except.ok () }
        "").didEnsure = false := by
  have h := C7_no_speech_skips_pipeline
    { stopRes := Except.ok "tail.wav", tailRes := Except.ok "",
      ensureRes := Except.error "must not run",
      summarizeRes := Except.error "must not run",
      saveRes := Except.ok (), copyRes := Except.ok () }
    ["t1.wav"] "" "tail.wav" "" rfl rfl (by decide)
  exact ⟨h.1, h.2.1⟩

/-! ## OllamaManager.ensure_model (src/app/ollama_manager.py lines 119-135) -/

/-- Does `hay` start with `needle`?  (Character-list level.) -/
def listStarts : List Char → List Char → Bool
  | [], _ => true
  | _ :: _, [] => false
  | a :: as, b :: bs => a == b && listStarts as bs

/-- Does `hay` contain `needle` as a contiguous run? -/
def hasSub (needle : List Char) : List Char → Bool
  | [] => needle.isEmpty
  | c :: t => listStarts needle (c :: t) || hasSub needle t

/-- Python's `needle in hay` on strings: contiguous substring containment. -/
def strIn (needle hay : String) : Bool :=
  hasSub needle.data hay.data

/-- Outcome of the `/api/tags` model-listing request (ollama_manager.py lines
122-124): either a raised exception (connection failure, malformed JSON —
swallowed by the bare `except` on lines 128-129), or a response carrying an
HTTP status and the listed model names. -/
inductive TagsResult where
  | raised
  | resp (status : Nat) (models : List String)
deriving Repr, DecidableEq

/-- The presence check of `ensure_model` (ollama_manager.py lines 122-127):
on a 200 response, `any(model in m or m in model for m in models)`; a non-200
response or a raised listing request leaves the model treated as absent. -/
def modelPresent (tags : TagsResult) (model : String) : Bool :=
  match tags with
  | TagsResult.resp 200 models =>
    models.any fun m => strIn model m || strIn m model
  | _ => false

/-- `ensure_model` (ollama_manager.py lines 119-135): return immediately when
the listing shows the model as present; otherwise run the blocking
`ollama pull`, which — through `subprocess.run(..., check=True)`, line 135 —
raises `CalledProcessError` exactly when the pull exits non-zero (the spec's
`ModelFetchError`).  The result is the pair (was a pull invoked, outcome). -/
def ensure_model (tags : TagsResult) (model : String) (pullExit : Nat) :
    Bool × Except String Unit :=
  if modelPresent tags model then (false, Except.ok ())
  else
    (true, if pullExit = 0 then Except.ok () else Except.error "ModelFetchError")

/-- A model name without its tag: everything before the first colon. -/
def baseName (s : String) : String :=
  ⟨s.data.takeWhile fun c => c != ':'⟩

/-- Modelled from the spec: "`name` (matched by exact or prefix/tag-insensitive
match)" — the requested and listed names are equal, or one equals the other's
untagged base name. -/
def specModelMatch (model m : String) : Bool :=
  model == m || baseName m == model || baseName model == m

theorem listStarts_refl (l : List Char) : listStarts l l = true := by
  induction l with
  | nil => rfl
  | cons c t ih => simp [listStarts, ih]

theorem listStarts_takeWhile (p : Char → Bool) (l : List Char) :
    listStarts (l.takeWhile p) l = true := by
  induction l with
  | nil => rfl
  | cons c t ih =>
    by_cases hp : p c = true
    · simp [List.takeWhile_cons, hp, listStarts, ih]
    · simp [List.takeWhile_cons, hp, listStarts]

theorem hasSub_of_starts (n l : List Char) (h : listStarts n l = true) :
    hasSub n l = true := by
  cases l with
  | nil =>
    cases n with
    | nil => rfl
    | cons a as => simp [listStarts] at h
  | cons c t => simp [hasSub, h]

theorem hasSub_refl (l : List Char) : hasSub l l = true :=
  hasSub_of_starts l l (listStarts_refl l)

/-- Counterexample to claim C8: the requested model "llama" is absent from the
listing `["codellama:7b"]` under the spec's exact-or-tag-insensitive matching,
so the claim requires a pull; but the code's bidirectional substring test
matches "llama" inside "codellama:7b", so `ensure_model` returns success
without invoking any fetch. -/
theorem C8_counterexample :
    specModelMatch "llama" "codellama:7b" = false
    ∧ (ensure_model (TagsResult.resp 200 ["codellama:7b"]) "llama" 1).1 = false
    ∧ (ensure_model (TagsResult.resp 200 ["codellama:7b"]) "llama" 1).2
        = Except.ok () := by
  exact ⟨by decide, by decide, rfl⟩

/-- Claim C8 as amended: the presence test is bidirectional substring
containment (`model in m or m in model`), which is implied by — but strictly
weaker than — the spec's exact-or-tag-insensitive match; a pull is invoked
exactly when no listed name passes that substring test, and the call fails
with the fetch error exactly when the invoked pull exits non-zero. -/
theorem C8_amended_substring_presence :
    (∀ model m : String, specModelMatch model m = true →
        (strIn model m || strIn m model) = true)
    ∧ (∀ tags model pullExit,
        (ensure_model tags model pullExit).1 = false
          ↔ modelPresent tags model = true)
    ∧ (∀ tags model pullExit, modelPresent tags model = false →
        ((ensure_model tags model pullExit).2 = Except.error "ModelFetchError"
          ↔ pullExit ≠ 0)) := by
  refine ⟨?_, ?_, ?_⟩
  · intro model m h
    simp only [specModelMatch, Bool.or_eq_true, beq_iff_eq] at h
    rcases h with (h | h) | h
    · subst h
      simp [strIn, hasSub_refl]
    · rw [← h]
      simp [strIn, baseName, hasSub_of_starts _ _ (listStarts_takeWhile _ _)]
    · rw [← h]
      simp [strIn, baseName, hasSub_of_starts _ _ (listStarts_takeWhile _ _)]
  · intro tags model pullExit
    by_cases hp : modelPresent tags model = true <;> simp [ensure_model, hp]
  · intro tags model pullExit hp
    by_cases hz : pullExit = 0 <;> simp [ensure_model, hp, hz]

/-- Witness for the amended C8: a tag-insensitive hit passes the substring
test, and a pull after a raised listing fails on exit code 1. -/
theorem C8_amended_substring_presence_witness :
    (strIn "qwen3" "qwen3:8b" || strIn "qwen3:8b" "qwen3") = true
    ∧ ((ensure_model TagsResult.raised "qwen3:8b" 1).2
          = Except.error "ModelFetchError" ↔ (1 : Nat) ≠ 0) :=
  ⟨C8_amended_substring_presence.1 "qwen3" "qwen3:8b" (by decide),
   C8_amended_substring_presence.2.2 TagsResult.raised "qwen3:8b" 1 (by decide)⟩

/-- Claim C10: a raised model-listing request is swallowed by the bare
`except: pass` (ollama_manager.py lines 128-129); `ensure_model` then treats
the model as absent and always proceeds to the blocking pull, so the caller
observes only the pull's outcome. -/
theorem C10_listing_error_swallowed (model : String) (pullExit : Nat) :
    (ensure_model TagsResult.raised model pullExit).1 = true
    ∧ (ensure_model TagsResult.raised model pullExit).2
        = (if pullExit = 0 then Except.ok () else Except.error "ModelFetchError") := by
  simp [ensure_model, modelPresent]

/-! ## Buffer locking structure (src/app/recorder.py)

`threading.Lock` `self._lock` is created at line 16.  `flush` (lines 34-39)
and `stop` (lines 49-65) mutate `_chunks` inside `with self._lock`; the
capture callback's append (line 19) is not inside any `with self._lock`
block. -/

/-- One mutation site of `Recorder._chunks`, tagged with whether the source
statement executes inside a `with self._lock` block. -/
structure BufferMutation where
  site : String
  underLock : Bool
deriving Repr, DecidableEq

/-- All mutations of `_chunks` in recorder.py, read off the source. -/
def bufferMutations : List BufferMutation :=
  [{ site := "callback.append", underLock := false },
   { site := "flush.read_and_clear", underLock := true },
   { site := "stop.read_and_clear", underLock := true }]

/-- Interleaving behaviour permitted by the missing lock in the callback:
atomic actions over the buffer, where flush's read (line 38) and clear
(line 39) are separate steps between which an unlocked append may run. -/
inductive RaceAct where
  | append (c : List Nat)
  | flushRead
  | flushClear
deriving Repr, DecidableEq

/-- Buffer plus the chunk list captured by a flush's read step. -/
structure RaceState where
  buffer : List (List Nat)
  readOut : List (List Nat)
deriving Repr, DecidableEq

def raceStep (s : RaceState) : RaceAct → RaceState
  | RaceAct.append c => { s with buffer := s.buffer ++ [c] }
  | RaceAct.flushRead => { s with readOut := s.buffer }
  | RaceAct.flushClear => { s with buffer := [] }

def raceRun (acts : List RaceAct) (s : RaceState) : RaceState :=
  acts.foldl raceStep s

/-- The chunks the capture callback appended during a schedule, in order. -/
def raceAppended : List RaceAct → List (List Nat)
  | [] => []
  | RaceAct.append c :: acts => c :: raceAppended acts
  | RaceAct.flushRead :: acts => raceAppended acts
  | RaceAct.flushClear :: acts => raceAppended acts

/-- Counterexample to claim C9: not every buffer mutation is under the shared
lock — the callback's append is not — and consequently an append interleaved
between a drain's read and clear is possible and silently loses that chunk
(here chunk `[2]`: the drain returns `[1]` and the buffer ends empty). -/
theorem C9_counterexample :
    bufferMutations.all (fun m => m.underLock) = false
    ∧ (raceRun [RaceAct.append [1], RaceAct.flushRead, RaceAct.append [2],
          RaceAct.flushClear] { buffer := [], readOut := [] }).readOut.flatten
        ++ (raceRun [RaceAct.append [1], RaceAct.flushRead, RaceAct.append [2],
          RaceAct.flushClear] { buffer := [], readOut := [] }).buffer.flatten
        = [1] := by
  refine ⟨by decide, by decide⟩

/-- Claim C9 as amended: `flush` and `stop` perform their read-and-clear
inside the shared lock, but the capture callback appends without acquiring
it, so the callback may interleave with a drain. -/
theorem C9_amended_lock_structure :
    (∀ m ∈ bufferMutations, m.site ≠ "callback.append" → m.underLock = true)
    ∧ (∃ m ∈ bufferMutations, m.underLock = false) := by
  refine ⟨by decide, by decide⟩

/-- Witness for the amended C9 at the flush mutation site. -/
theorem C9_amended_lock_structure_witness :
    ({ site := "flush.read_and_clear", underLock := true } :
      BufferMutation).underLock = true :=
  C9_amended_lock_structure.1
    { site := "flush.read_and_clear", underLock := true }
    (by decide) (by decide)

/-- Counterexample to claim C2: a session the unlocked callback makes
possible, where chunk `[2]` is appended between a drain's read (recorder.py
line 38) and its clear (line 39).  The drained audio plus the remaining
buffer concatenates to `[1]` while the captured chunks concatenate to
`[1, 2]`: a sample is dropped, refuting the universal no-loss equation. -/
theorem C2_counterexample :
    (raceRun [RaceAct.append [1], RaceAct.flushRead, RaceAct.append [2],
        RaceAct.flushClear] { buffer := [], readOut := [] }).readOut.flatten
      ++ (raceRun [RaceAct.append [1], RaceAct.flushRead, RaceAct.append [2],
        RaceAct.flushClear] { buffer := [], readOut := [] }).buffer.flatten
      ≠ (raceAppended [RaceAct.append [1], RaceAct.flushRead, RaceAct.append [2],
        RaceAct.flushClear]).flatten := by
  decide

end LocalNotes
